import Mathlib

/-!
Verification development for the SpaceTraders fleet orchestration core.

Shallow embedding of the Python sources under src/SpaceTraders:
  fleet_resource_manager.py  (ship locks, request queue, request/release interface)
  io.py                      (write retry loop, custom update guard)
  F_nav.py                   (greedy fuel-bounded path planner)
  controllers/system_market_intel.py (market refresh selector)
  controllers/system_traders.py      (trade bundling and the ongoing-trades ledger)

The SQLite store is embedded as explicit state: tables become association
lists kept in table (insertion) order, an update-mode write (write_data with
mode="update") deletes the keyed rows and appends the new row at the end,
exactly as io.write_rows issues DELETE ... ; INSERT ... .  Store-level
transient failures (database busy/locked) are not modelled in the state
transitions; they are treated separately for the write_data retry claim.
Python floats that hold waypoint distances are embedded as rationals, and
the Python built-in round (banker rounding, round half to even) is embedded
as pyRound below.
-/

namespace SpaceTraders

/-- Python round on a rational: round half to even, as the Python built-in
round does for floats with an exactly representable half. -/
def pyRound (q : ℚ) : ℤ :=
  if q - (⌊q⌋ : ℚ) < 1/2 then ⌊q⌋
  else if 1/2 < q - (⌊q⌋ : ℚ) then ⌊q⌋ + 1
  else if ⌊q⌋ % 2 = 0 then ⌊q⌋ else ⌊q⌋ + 1

/-! ## Fleet resource manager (src/SpaceTraders/fleet_resource_manager.py)

One row per ship in the table named control.SHIP_LOCKS; the request queue is
the table named control.SHIP_REQUESTS.  Reads take the first matching record
(records[0]), writes in update mode delete the keyed rows and append.
The ship.NAV status cache is a function of the ship symbol, and the remote
API nav status (used by the self-repair refresh) is a second function. -/

structure LockRow where
  controller : Option String
  priority : Int
  blocked : Bool
deriving DecidableEq

structure ReqRow where
  ship : String
  controller : String
  priority : Int
  ts_created : Int
deriving DecidableEq

structure FrmState where
  locks : List (String × LockRow)
  requests : List ReqRow
  navStatus : String → String
  apiNavStatus : String → String
  now : Int

/-- First lock record for the ship, as SELECT ... WHERE shipSymbol = s reads
records[0]. -/
def lookupLock (locks : List (String × LockRow)) (s : String) : Option LockRow :=
  (locks.find? (fun p => p.1 == s)).map (fun p => p.2)

/-- get_ship_blocked_status: the blocked flag of the lock row, and False when
no row exists. -/
def get_ship_blocked_status (st : FrmState) (s : String) : Bool :=
  match lookupLock st.locks s with
  | some r => r.blocked
  | none => false

/-- get_ship_controller: (controller, priority) of the lock row, and
(None, -1) when no row exists. -/
def get_ship_controller (st : FrmState) (s : String) : Option String × Int :=
  match lookupLock st.locks s with
  | some r => (r.controller, r.priority)
  | none => (none, -1)

/-- io.write_data on control.SHIP_LOCKS with mode="update", key=[shipSymbol]:
delete the keyed rows, then insert the new row at the end of the table. -/
def write_lock_row (st : FrmState) (s : String) (row : LockRow) : FrmState :=
  { st with locks := st.locks.filter (fun p => !(p.1 == s)) ++ [(s, row)] }

/-- release_ship: refuse when blocked and not forced, else clear the row to
(controller=None, priority=-1, blocked=False). -/
def release_ship (s : String) (force : Bool) (st : FrmState) : Bool × FrmState :=
  if !force && get_ship_blocked_status st s then (false, st)
  else (true, write_lock_row st s ⟨none, -1, false⟩)

/-- lock_ship: refuse when blocked, else write (controller, priority,
blocked=False). -/
def lock_ship (s c : String) (p : Int) (st : FrmState) : Bool × FrmState :=
  if get_ship_blocked_status st s then (false, st)
  else (true, write_lock_row st s ⟨some c, p, false⟩)

/-- get_request_timeout: how long a request remains valid, in seconds. -/
def get_request_timeout : Int := 40

/-- enqueue_request: upsert keyed on (ship, controller) with
ts_created = int(time.time()). -/
def enqueue_request (s c : String) (p : Int) (st : FrmState) : Bool × FrmState :=
  (true,
    { st with
        requests :=
          st.requests.filter (fun r => !(r.ship == s && r.controller == c)) ++
            [⟨s, c, p, st.now⟩] })

/-- io.update_records_custom: refuses (returns False, executing nothing) any
statement that does not start with UPDATE; the Python query.startswith call
is embedded as a comparison of the first six characters.  The only call site
in the repository (pop_request) passes a DELETE statement, so the accepting
branch is never reached from the embedded code; its conn.execute effect is
not modelled. -/
def update_records_custom (query : String) (st : FrmState) : Bool × FrmState :=
  if query.data.take 6 = ("UPDATE").data then (true, st) else (false, st)

/-- pop_request: issues a DELETE through update_records_custom, exactly as the
source builds the statement. -/
def pop_request (s c : String) (st : FrmState) : Bool × FrmState :=
  update_records_custom
    ("DELETE FROM 'control.SHIP_REQUESTS' where ship=\"" ++ s ++
      "\" and controller=\"" ++ c ++ "\"") st

/-- Columns of control.SHIP_REQUESTS.  The table is created by
io.write_rows from the first enqueued row, so its columns are exactly the
keys of the dict written by enqueue_request. -/
def shipRequestsColumns : List String := ["ship", "controller", "priority", "ts_created"]

/-- Identifiers the peek_request_queue query references outside SELECT *:
ts_created in the WHERE clause and priority, order in the ORDER BY clause
(the bracket-quoted [order] is an identifier in SQLite). -/
def peekQueryColumns : List String := ["ts_created", "priority", "order"]

/-- Stable insertion into a list ordered by descending priority. -/
def insertPrioDesc (x : ReqRow) : List ReqRow → List ReqRow
  | [] => [x]
  | y :: ys => if x.priority ≤ y.priority then y :: insertPrioDesc x ys else x :: y :: ys

/-- Rows ordered by priority descending, table order among equal priorities. -/
def sortPrioDesc (l : List ReqRow) : List ReqRow :=
  l.foldr insertPrioDesc []

/-- peek_request_queue.  SQLite resolves every identifier of the statement
against the table schema when it prepares the query; the ORDER BY references
the column named order, which control.SHIP_REQUESTS does not have (and a
missing table errors as well), so pandas raises a DatabaseError whose text is
not a syntax error and io.read_df re-raises it.  The accepting branch
transcribes the rest of the query: the TTL filter on ts_created and the
priority ordering, with NO filter on the ship argument (the query has no
WHERE clause on ship). -/
def peek_request_queue (s : String) (st : FrmState) : Except String (Option String) :=
  if peekQueryColumns.all (fun c => shipRequestsColumns.contains c) then
    let live := st.requests.filter (fun r => st.now - r.ts_created ≤ get_request_timeout)
    Except.ok ((sortPrioDesc live).head?.map (fun r => r.controller))
  else
    Except.error ("no such column: order")

/-- F_nav._refresh_ship_nav as it affects the embedded state: the nav status
cache of the ship is overwritten from the remote API. -/
def refresh_ship_nav (s : String) (st : FrmState) : FrmState :=
  { st with navStatus := fun x => if x == s then st.apiNavStatus s else st.navStatus x }

/-- request_ship: blocked ships enqueue and refuse; an in-transit cache entry
triggers a nav refresh; the current owner is re-granted; a strictly higher
priority preempts (release then lock); otherwise the request queue is
consulted, which propagates the error raised by peek_request_queue. -/
def request_ship (s c : String) (p : Int) (st : FrmState) :
    Except String Bool × FrmState :=
  if get_ship_blocked_status st s then
    (Except.ok false, (enqueue_request s c p st).2)
  else
    let st1 := if st.navStatus s == "IN_TRANSIT" then refresh_ship_nav s st else st
    let cur := get_ship_controller st1 s
    if cur.1 == some c then
      (Except.ok true, st1)
    else if cur.2 < p then
      let r1 := release_ship s false st1
      if r1.1 then
        let r2 := lock_ship s c p r1.2
        (Except.ok r2.1, r2.2)
      else
        (Except.ok false, r1.2)
    else
      match peek_request_queue s st1 with
      | Except.error e => (Except.error e, st1)
      | Except.ok queued =>
        if queued == none || queued == some c then
          let a := lock_ship s c p st1
          if a.1 then (Except.ok true, (pop_request s c a.2).2)
          else (Except.ok false, a.2)
        else
          (Except.ok false, (enqueue_request s c p st1).2)

/-- get_controller_fleet: SELECT DISTINCT shipSymbol WHERE controller = c, in
table order (a NULL controller never equals c). -/
def get_controller_fleet (c : String) (st : FrmState) : List String :=
  ((st.locks.filter (fun p => p.2.controller == some c)).map (fun p => p.1)).dedup

/-- release_fleet: success starts True and each iteration runs
success = success and release_ship(s, force); the Python and operator
short-circuits, so after the first failure release_ship is no longer
called. -/
def release_fleet (c : String) (force : Bool) (st : FrmState) : Bool × FrmState :=
  (get_controller_fleet c st).foldl
    (fun acc s => if acc.1 then release_ship s force acc.2 else (false, acc.2))
    (true, st)

/-! ## Navigation planner (src/SpaceTraders/F_nav.py, get_path)

The planner consults wp_distance (cached or computed Euclidean distances),
the known fuel stops of the system, the fuel capacity of the ship and its
registration role; these form the environment below.  Distances are embedded
as rationals.  Flight modes are the four strings accepted by the code. -/

inductive Mode where
  | DRIFT
  | CRUISE
  | BURN
  | STEALTH
deriving DecidableEq

structure Hop where
  dst : String
  mode : Mode
  d : ℚ
deriving DecidableEq

structure NavEnv where
  dist : String → String → ℚ
  fuelStops : List String
  capacity : ℤ
  role : String

/-- Fuel cost of travelling a distance under a flight mode:
DRIFT=1, CRUISE=round(d), BURN=2*round(d), STEALTH=round(d). -/
def fuelCost (m : Mode) (d : ℚ) : ℚ :=
  match m with
  | Mode.DRIFT => 1
  | Mode.CRUISE => (pyRound d : ℚ)
  | Mode.BURN => 2 * (pyRound d : ℚ)
  | Mode.STEALTH => (pyRound d : ℚ)

/-- get_fuel_required, whose flight mode defaults to CRUISE at the call site
inside get_path. -/
def get_fuel_required (env : NavEnv) (wp1 wp2 : String) (flightmode : Mode) : ℚ :=
  fuelCost flightmode (env.dist wp1 wp2)

/-- fuelcap = get_fuel_capacity(ship) - 1.0. -/
def fuelcapQ (env : NavEnv) : ℚ := (env.capacity : ℚ) - 1

/-- burncap = math.floor(fuelcap / 2.0) - 1.0. -/
def burncapQ (env : NavEnv) : ℚ := ((⌊fuelcapQ env / 2⌋ : ℤ) : ℚ) - 1

/-- sorted(reachable, key=dist to goal)[0]: Python sorted is stable, so the
head of the sorted list is the earliest element with minimal key. -/
def pickClosest (env : NavEnv) (goal : String) (b : String) (rest : List String) : String :=
  rest.foldl (fun best wp => if env.dist wp goal < env.dist best goal then wp else best) b

/-- The while loop of get_path.  The fuel argument only bounds the recursion:
every iteration that continues removes the current node from nodes, so the
loop runs at most (number of nodes) iterations and get_path supplies
nodes.length + 1; the fuel = 0 case is never reached from get_path.
On failure the loop discards the accumulated path and returns the empty
list, exactly like the source returns list(). -/
def get_path_go (env : NavEnv) (fuelcap burncap : ℚ) (goal : String) :
    Nat → List String → String → List Hop → List Hop
  | 0, _, _, _ => []
  | fuel + 1, nodes, cur, path =>
    let dst_dist := env.dist cur goal
    if dst_dist < fuelcap then
      let flightmode :=
        if dst_dist < burncap ∧ goal ∈ env.fuelStops then Mode.BURN else Mode.CRUISE
      path ++ [⟨goal, flightmode, dst_dist⟩]
    else
      let reachable :=
        nodes.filter (fun wp => get_fuel_required env cur wp Mode.CRUISE < fuelcap)
      match reachable with
      | [] => []
      | b :: rest =>
        let next_node := pickClosest env goal b rest
        if env.dist next_node goal ≥ dst_dist then []
        else
          let next_hop_dist := env.dist cur next_node
          let flightmode := if next_hop_dist < burncap then Mode.BURN else Mode.CRUISE
          get_path_go env fuelcap burncap goal fuel (nodes.erase cur) next_node
            (path ++ [⟨next_node, flightmode, next_hop_dist⟩])

/-- get_path.  The fuelcap < 1 branch returns the single BURN hop for a
SATELLITE and fails otherwise; the main branch runs the greedy loop over
{src, dst} and the known fuel stops (list(set(...)) deduplicates with an
order the Python set leaves unspecified; the embedding deduplicates keeping
last occurrences, and no settled claim depends on the node order). -/
def get_path (env : NavEnv) (src dst : String) : List Hop :=
  let fuelcap := fuelcapQ env
  let burncap := burncapQ env
  if fuelcap < 1 then
    if env.role == "SATELLITE" then [⟨dst, Mode.BURN, env.dist src dst⟩]
    else []
  else
    let nodes := ([src, dst] ++ env.fuelStops).dedup
    get_path_go env fuelcap burncap dst (nodes.length + 1) nodes src []

/-! ## Store writes with retries (src/SpaceTraders/io.py, write_data)

write_rows catches every exception raised during the write, logs it and
returns False, whatever the message says (the syntax error case only changes
what is printed).  write_data loops while (not success) and
(retries < max_retries) with max_retries = 3, incrementing retries at the
top, and sleeps backoff_s * retries = 0.5 * retries seconds after every
failed attempt, including the last one.  The outcome of each attempt is the
environment of the embedding: attempt k (k = 1, 2, 3) either performs the
write or fails with a message. -/

inductive WriteOutcome where
  | ok
  | failed (msg : String)
deriving DecidableEq

/-- Return value of write_rows for a given attempt outcome: True on success,
False for every caught exception, syntax errors included. -/
def write_rows_result : WriteOutcome → Bool
  | WriteOutcome.ok => true
  | WriteOutcome.failed _ => false

/-- The retry loop of write_data; left counts the remaining iterations
allowed by retries < max_retries, retries counts the attempts made, and the
list accumulates the sleep durations in seconds. -/
def write_data_go (outcome : Nat → WriteOutcome) :
    Nat → Nat → List ℚ → Bool × Nat × List ℚ
  | 0, retries, sleeps => (false, retries, sleeps)
  | left + 1, retries, sleeps =>
    let r := retries + 1
    if write_rows_result (outcome r) then (true, r, sleeps)
    else write_data_go outcome left r (sleeps ++ [(1/2 : ℚ) * (r : ℚ)])

/-- write_data: up to max_retries = 3 attempts; returns whether the write
succeeded, how many attempts were made, and the backoff sleeps performed. -/
def write_data (outcome : Nat → WriteOutcome) : Bool × Nat × List ℚ :=
  write_data_go outcome 3 0 []

/-! ## Market intel refresh selector
(src/SpaceTraders/controllers/system_market_intel.py)

get_import_export_markets_by_freshness groups tradegoods_current by
marketSymbol, keeps groups having sum(type = IMPORT) > 0,
sum(type = EXPORT) > 0 and ts_created < now - time_delta, and orders by
ts_created ascending.  ts_created appears bare under GROUP BY, so SQLite
takes its value from an arbitrary row of the group; the embedding takes the
last row of the group in table order.  The query has no condition on the
system argument: the function receives it and never uses it (its two sibling
selectors do filter on the system). -/

structure TgRow where
  marketSymbol : String
  type : String
  ts_created : Int
deriving DecidableEq

/-- Rows of one market group, in table order. -/
def tg_group (rows : List TgRow) (m : String) : List TgRow :=
  rows.filter (fun r => r.marketSymbol == m)

/-- Distinct market symbols, one per group. -/
def tg_markets (rows : List TgRow) : List String :=
  (rows.map (fun r => r.marketSymbol)).dedup

/-- The ts_created value SQLite reports for a group when the column appears
bare under GROUP BY, embedded as the value of the last row of the group. -/
def tg_rep_ts (rows : List TgRow) (m : String) : Int :=
  (((tg_group rows m).getLast?).map (fun r => r.ts_created)).getD 0

/-- Stable insertion into a list ordered ascending by the key. -/
def insertTsAsc (key : String → Int) (x : String) : List String → List String
  | [] => [x]
  | y :: ys => if key y ≤ key x then y :: insertTsAsc key x ys else x :: y :: ys

/-- Stable sort ascending by the key. -/
def sortTsAsc (key : String → Int) (l : List String) : List String :=
  l.foldr (insertTsAsc key) []

/-- get_import_export_markets_by_freshness.  The system argument is received
and not used, mirroring the source query. -/
def get_import_export_markets_by_freshness (system : String) (time_delta : Int)
    (now : Int) (rows : List TgRow) : List String :=
  let _ := system
  let kept := (tg_markets rows).filter (fun m =>
    (tg_group rows m).any (fun r => r.type == "IMPORT") &&
    (tg_group rows m).any (fun r => r.type == "EXPORT") &&
    decide (tg_rep_ts rows m < now - time_delta))
  sortTsAsc (tg_rep_ts rows) kept

/-! ## Greedy trader bundling
(src/SpaceTraders/controllers/system_traders.py)

trade_in_system builds the task with repeats = max(1, max_traders -
n_ongoing); assign_hauler_to_trade, once the ship is acquired, recomputes
n_repeats = max(1, min(cargo_capacity // trade.units, trade.repeats)) and
stores it in the task; back in trade_in_system the ongoing-trades ledger
entry for (tradeSymbol, source, sink) is set to n_covered when n_ongoing was
0 and to n_ongoing + n_covered otherwise, with n_covered the stored repeat
count.  Python // on integers is floor division, embedded as Int.fdiv. -/

/-- Repeat count trade_in_system puts into the TaskTrade. -/
def trade_task_repeats (max_traders n_ongoing : Int) : Int :=
  max 1 (max_traders - n_ongoing)

/-- Repeat count assign_hauler_to_trade stores after acquiring the ship. -/
def assign_hauler_repeats (cargo_capacity units repeats : Int) : Int :=
  max 1 (min (Int.fdiv cargo_capacity units) repeats)

/-- The repeat count of the task actually spawned: the composition of the
two computations above. -/
def assigned_repeats (cargo_capacity units max_traders n_ongoing : Int) : Int :=
  assign_hauler_repeats cargo_capacity units (trade_task_repeats max_traders n_ongoing)

/-- Lookup in an insertion-ordered association list (a Python dict). -/
def alist_get {α : Type} (l : List (String × α)) (k : String) : Option α :=
  (l.find? (fun p => p.1 == k)).map (fun p => p.2)

/-- Assignment d[k] = v on a Python dict: replace in place when the key
exists, append otherwise. -/
def alist_set {α : Type} (l : List (String × α)) (k : String) (v : α) :
    List (String × α) :=
  if l.any (fun p => p.1 == k) then
    l.map (fun p => if p.1 == k then (k, v) else p)
  else l ++ [(k, v)]

/-- The nested ongoing_trades dict: item, then source, then sink, to the
number of active assignments. -/
def OngoingTrades : Type := List (String × List (String × List (String × Int)))

/-- ongoing_trades.get(sym, dict()).get(src, dict()).get(sink, 0). -/
def ongoing_get (L : OngoingTrades) (sym src sink : String) : Int :=
  ((alist_get ((alist_get L sym).getD []) src).getD [] |> fun inner =>
    (alist_get inner sink).getD 0)

/-- The ledger update trade_in_system performs after a successful
assignment: when n_ongoing = 0 the whole entry for the trade symbol is
replaced by the singleton nested dict holding n_covered; otherwise the
(sym, src, sink) leaf is set to n_ongoing + n_covered (the three keys exist
whenever n_ongoing is non-zero, so the nested in-place assignment is the
nested replacement below). -/
def ongoing_mark (L : OngoingTrades) (sym src sink : String)
    (n_ongoing n_covered : Int) : OngoingTrades :=
  if n_ongoing = 0 then
    alist_set L sym [(src, [(sink, n_covered)])]
  else
    let msym := (alist_get L sym).getD []
    let msrc := (alist_get msym src).getD []
    alist_set L sym (alist_set msym src (alist_set msrc sink (n_ongoing + n_covered)))

/-! ## Concrete fixtures used by the claim theorems, their witnesses and the
counterexamples. -/

/-- A state where S1 is owned by controller A at priority 100, unblocked,
with an empty request queue and a ship that is not in transit. -/
def stOwnedA : FrmState :=
  { locks := [("S1", ⟨some "A", 100, false⟩)]
    requests := []
    navStatus := fun _ => "IN_ORBIT"
    apiNavStatus := fun _ => "IN_ORBIT"
    now := 0 }

/-- A state whose request queue holds the single entry (S1, B, 100) created
at t = 0, observed at t = 0. -/
def stQueuedB : FrmState :=
  { locks := []
    requests := [⟨"S1", "B", 100, 0⟩]
    navStatus := fun _ => "IN_ORBIT"
    apiNavStatus := fun _ => "IN_ORBIT"
    now := 0 }

/-- The same queue as stQueuedB observed at t = 41, one second past the
40 second TTL of the entry. -/
def stQueuedB41 : FrmState :=
  { stQueuedB with now := 41 }

/-- A state where controller C owns the blocked ship S1 and the unblocked
ship S2, in that table order. -/
def stFleetC : FrmState :=
  { locks := [("S1", ⟨some "C", 5, true⟩), ("S2", ⟨some "C", 5, false⟩)]
    requests := []
    navStatus := fun _ => "IN_ORBIT"
    apiNavStatus := fun _ => "IN_ORBIT"
    now := 0 }

/-- Distance oracle: zero on the diagonal, k between distinct waypoints. -/
def distConst (k : ℚ) : String → String → ℚ :=
  fun a b => if a == b then 0 else k

/-- A satellite with zero fuel capacity, five distance units from its goal. -/
def envSat : NavEnv :=
  { dist := distConst 5, fuelStops := [], capacity := 0, role := "SATELLITE" }

/-- fuelCap = 100, burnCap = 49, goal 40 away and a fuel stop. -/
def envBurn : NavEnv :=
  { dist := distConst 40, fuelStops := ["B"], capacity := 101, role := "HAULER" }

/-- fuelCap = 100, burnCap = 49, goal 60 away. -/
def envCruise : NavEnv :=
  { dist := distConst 60, fuelStops := ["B"], capacity := 101, role := "HAULER" }

/-- fuelCap = 100 with the goal exactly 100 away and no fuel stops. -/
def envEdge : NavEnv :=
  { dist := distConst 100, fuelStops := [], capacity := 101, role := "HAULER" }

/-- fuelCap = 100, burnCap = 49, with the goal a fuel stop exactly 49 away. -/
def env49 : NavEnv :=
  { dist := distConst 49, fuelStops := ["B"], capacity := 101, role := "HAULER" }

/-- Snapshot rows of a market of system AA-S2 that both imports and exports,
last refreshed at t = 0. -/
def tgRowsForeign : List TgRow :=
  [⟨"AA-S2-M", "IMPORT", 0⟩, ⟨"AA-S2-M", "EXPORT", 0⟩]

/-- A richer snapshot table: an old import+export market of system AA-S1, an
old import+export market of system AA-S2, an exchange-only market, a fresh
import+export market and an import-only market. -/
def tgRowsMixed : List TgRow :=
  [⟨"AA-S1-M1", "IMPORT", 10⟩, ⟨"AA-S1-M1", "EXPORT", 10⟩,
   ⟨"AA-S2-M2", "IMPORT", 5⟩, ⟨"AA-S2-M2", "EXPORT", 5⟩,
   ⟨"AA-S1-M3", "EXCHANGE", 3⟩,
   ⟨"AA-S1-M4", "IMPORT", 950⟩, ⟨"AA-S1-M4", "EXPORT", 950⟩,
   ⟨"AA-S1-M5", "IMPORT", 4⟩]

end SpaceTraders

namespace SpaceTraders

/-! ## Theorems -/

theorem pyRound_le_add_half (q : ℚ) : (pyRound q : ℚ) ≤ q + 1/2 := by
  unfold pyRound
  have h0 : ((⌊q⌋ : ℤ) : ℚ) ≤ q := Int.floor_le q
  split
  · linarith
  · rename_i h1
    split
    · rename_i h2
      push_cast
      linarith
    · rename_i h2
      have h3 : q - (⌊q⌋ : ℚ) = 1/2 := le_antisymm (not_lt.mp h2) (not_lt.mp h1)
      split
      · linarith
      · push_cast
        linarith

theorem pyRound_le_int (c : ℤ) (d : ℚ) (h : d < (c : ℚ)) : (pyRound d : ℚ) ≤ (c : ℚ) := by
  have h1 := pyRound_le_add_half d
  have h2 : (pyRound d : ℚ) < (c : ℚ) + 1 := by linarith
  have h3 : pyRound d < c + 1 := by exact_mod_cast h2
  exact_mod_cast Int.lt_add_one_iff.mp h3

theorem fuelcapQ_eq_intCast (env : NavEnv) : fuelcapQ env = ((env.capacity - 1 : ℤ) : ℚ) := by
  unfold fuelcapQ
  push_cast
  ring

/-- The fuel capacity bound is an integer, so a distance strictly below it
rounds to at most it. -/
theorem pyRound_le_fuelcap (env : NavEnv) (d : ℚ) (h : d < fuelcapQ env) :
    (pyRound d : ℚ) ≤ fuelcapQ env := by
  rw [fuelcapQ_eq_intCast] at h ⊢
  exact pyRound_le_int _ _ h

/-- A distance strictly below burncap has BURN cost at most fuelcap, since
2 * (floor(fuelcap / 2) - 1) is at most fuelcap - 2. -/
theorem two_pyRound_le_fuelcap (env : NavEnv) (d : ℚ) (h : d < burncapQ env) :
    2 * (pyRound d : ℚ) ≤ fuelcapQ env := by
  have hb : d < ((⌊fuelcapQ env / 2⌋ - 1 : ℤ) : ℚ) := by
    unfold burncapQ at h
    push_cast at h ⊢
    linarith
  have h1 := pyRound_le_int _ _ hb
  have h2 : ((⌊fuelcapQ env / 2⌋ : ℤ) : ℚ) ≤ fuelcapQ env / 2 := Int.floor_le _
  push_cast at h1
  linarith

/-- The head of the stable sort by distance is one of the candidates. -/
theorem pickClosest_mem (env : NavEnv) (goal b : String) (rest : List String) :
    pickClosest env goal b rest ∈ b :: rest := by
  induction rest generalizing b with
  | nil => simp [pickClosest]
  | cons a t ih =>
    have hstep : pickClosest env goal b (a :: t) =
        pickClosest env goal (if env.dist a goal < env.dist b goal then a else b) t := rfl
    rw [hstep]
    by_cases h : env.dist a goal < env.dist b goal
    · rw [if_pos h]
      have h2 := ih a
      simp only [List.mem_cons] at h2 ⊢
      tauto
    · rw [if_neg h]
      have h2 := ih b
      simp only [List.mem_cons] at h2 ⊢
      tauto

/-- Invariant of the planner loop: the result is empty, or every hop it ever
appended costs at most fuelcap and the walk ends at the goal. -/
theorem get_path_go_spec (env : NavEnv) (goal : String) :
    ∀ (fuel : Nat) (nodes : List String) (cur : String) (path : List Hop),
      (∀ h ∈ path, fuelCost h.mode h.d ≤ fuelcapQ env) →
      get_path_go env (fuelcapQ env) (burncapQ env) goal fuel nodes cur path = [] ∨
        ((∀ h ∈ get_path_go env (fuelcapQ env) (burncapQ env) goal fuel nodes cur path,
            fuelCost h.mode h.d ≤ fuelcapQ env) ∧
          (get_path_go env (fuelcapQ env) (burncapQ env) goal fuel nodes
            cur path).getLast?.map Hop.dst = some goal) := by
  intro fuel
  induction fuel with
  | zero =>
    intro nodes cur path hp
    left
    rfl
  | succ n ih =>
    intro nodes cur path hp
    simp only [get_path_go]
    split
    · rename_i h1
      right
      constructor
      · intro h hm
        rcases List.mem_append.mp hm with hm | hm
        · exact hp h hm
        · simp only [List.mem_singleton] at hm
          subst hm
          by_cases h2 : env.dist cur goal < burncapQ env ∧ goal ∈ env.fuelStops
          · rw [if_pos h2]
            exact two_pyRound_le_fuelcap env _ h2.1
          · rw [if_neg h2]
            exact pyRound_le_fuelcap env _ h1
      · simp
    · rename_i h1
      split
      · left
        rfl
      · rename_i b rest heq
        split
        · left
          rfl
        · rename_i h2
          apply ih
          intro h hm
          rcases List.mem_append.mp hm with hm | hm
          · exact hp h hm
          · simp only [List.mem_singleton] at hm
            subst hm
            by_cases h3 : env.dist cur (pickClosest env goal b rest) < burncapQ env
            · rw [if_pos h3]
              exact two_pyRound_le_fuelcap env _ h3
            · rw [if_neg h3]
              have hmem : pickClosest env goal b rest ∈
                  nodes.filter
                    (fun wp => get_fuel_required env cur wp Mode.CRUISE < fuelcapQ env) := by
                rw [heq]
                exact pickClosest_mem env goal b rest
              have hf := List.of_mem_filter hmem
              have hlt : get_fuel_required env cur (pickClosest env goal b rest) Mode.CRUISE
                  < fuelcapQ env := of_decide_eq_true hf
              exact le_of_lt hlt

theorem distConst_self (k : ℚ) (a : String) : distConst k a a = 0 := by
  simp [distConst]

theorem distConst_ne (k : ℚ) (a b : String) (h : ¬ a = b) : distConst k a b = k := by
  simp [distConst, h]

/-- After the delete-and-insert of an update-mode write, the keyed row is
found, and it is the inserted one. -/
theorem find?_filter_not_append {α : Type} (p : α → Bool) (l : List α) (y : α)
    (hy : p y = true) :
    List.find? p ((l.filter (fun x => !p x)) ++ [y]) = some y := by
  induction l with
  | nil => simp [List.find?, hy]
  | cons a t ih =>
    by_cases h : p a
    · simp only [List.filter_cons, h]
      simpa using ih
    · simp only [List.filter_cons, h]
      simp only [Bool.not_false, if_true]
      rw [List.cons_append, List.find?_cons]
      simp [h, ih]

theorem lookupLock_write_self (st : FrmState) (s : String) (row : LockRow) :
    lookupLock (write_lock_row st s row).locks s = some row := by
  unfold lookupLock write_lock_row
  simp only []
  rw [find?_filter_not_append]
  · rfl
  · simp

/-- When the ship is not blocked, is not owned by the requester, and the
current priority is not beaten, request_ship reaches the request queue and
propagates the database error its query raises. -/
theorem request_ship_peek_error (st : FrmState) (s c2 : String) (p2 : Int)
    (hb : get_ship_blocked_status st s = false)
    (hc : ¬ (get_ship_controller st s).1 = some c2)
    (hp : ¬ (get_ship_controller st s).2 < p2) :
    request_ship s c2 p2 st = (Except.error ("no such column: order"),
      if st.navStatus s == "IN_TRANSIT" then refresh_ship_nav s st else st) := by
  have hc' : ((get_ship_controller st s).1 == some c2) = false := by
    simpa using hc
  by_cases hn : st.navStatus s == "IN_TRANSIT"
  · have hcr : get_ship_controller (refresh_ship_nav s st) s = get_ship_controller st s := rfl
    simp only [request_ship, hb, Bool.false_eq_true, if_false, hn, if_true, hcr, hc',
      if_neg hp]
    rfl
  · simp only [request_ship, hb, Bool.false_eq_true, if_false, hn, hc', if_neg hp]
    rfl

/-- Setting a key of a Python dict makes lookup of that key return the new
value. -/
theorem alist_get_set_self {α : Type} (l : List (String × α)) (k : String) (v : α) :
    alist_get (alist_set l k v) k = some v := by
  induction l with
  | nil => simp [alist_get, alist_set, List.find?]
  | cons a t ih =>
    by_cases ha : (a.1 == k) = true
    · have hany : ((a :: t).any (fun p => p.1 == k)) = true := by
        simp [List.any_cons, ha]
      have hset : alist_set (a :: t) k v
          = (k, v) :: t.map (fun p => if p.1 == k then (k, v) else p) := by
        simp only [alist_set, if_pos hany, List.map_cons, ha, if_true]
      rw [hset]
      simp [alist_get, List.find?_cons]
    · have hfa : (if a.1 == k then (k, v) else a) = a := by
        simp [ha]
      by_cases ht : (t.any (fun p => p.1 == k)) = true
      · have hany : ((a :: t).any (fun p => p.1 == k)) = true := by
          simp [List.any_cons, ht]
        have hset : alist_set (a :: t) k v = a :: alist_set t k v := by
          simp only [alist_set, if_pos hany, List.map_cons, hfa]
          rw [if_pos ht]
        rw [hset]
        simp only [alist_get, List.find?_cons, ha]
        exact ih
      · have hany : ¬ ((a :: t).any (fun p => p.1 == k)) = true := by
          simp only [List.any_cons, Bool.or_eq_true]
          rintro (h | h)
          · exact ha h
          · exact ht h
        have hset : alist_set (a :: t) k v = a :: alist_set t k v := by
          simp only [alist_set, if_neg hany, if_neg ht, List.cons_append]
        rw [hset]
        simp only [alist_get, List.find?_cons, ha]
        exact ih

/-- The ledger update of trade_in_system raises the (sym, src, sink) entry by
exactly the covered repeat count, in both of its branches. -/
theorem ongoing_get_mark (L : OngoingTrades) (sym src sink : String) (n_cov : Int) :
    ongoing_get (ongoing_mark L sym src sink (ongoing_get L sym src sink) n_cov)
      sym src sink = ongoing_get L sym src sink + n_cov := by
  unfold ongoing_mark
  by_cases h : ongoing_get L sym src sink = 0
  · rw [if_pos h, h]
    unfold ongoing_get
    rw [alist_get_set_self]
    simp [alist_get, List.find?]
  · rw [if_neg h]
    unfold ongoing_get
    rw [alist_get_set_self]
    simp only [Option.getD_some]
    rw [alist_get_set_self]
    simp only [Option.getD_some]
    rw [alist_get_set_self]
    rfl

/-! ## Claim theorems -/

/-- C1 (counterexample).  The claim states that with S1 owned by A at
priority 100, unblocked, and an empty request queue, request_ship(S1, B, 100)
returns false with the ownership row unchanged.  On the code the call never
returns false: the queue consultation propagates the database error of
peek_request_queue (whose ORDER BY references the missing column named
order), so the result is an exception, not the value False. -/
theorem c1_equal_priority_empty_queue_cex :
    (request_ship ("S1") ("B") 100 stOwnedA).1 = Except.error ("no such column: order") ∧
    ¬ (request_ship ("S1") ("B") 100 stOwnedA).1 = Except.ok false := by
  refine ⟨rfl, ?_⟩
  intro h
  rw [show (request_ship ("S1") ("B") 100 stOwnedA).1
      = Except.error ("no such column: order") from rfl] at h
  exact Except.noConfusion h

/-- C1 (amended).  For an unblocked ship, request_ship returns true only if
the current controller is the requester or the current priority is strictly
beaten; when neither holds the call does not return false as claimed: it
propagates the database error raised by the request-queue query, leaving the
lock table unchanged.  (Had the queue query succeeded, the code would grant
the request whenever the queue is empty or the requester heads it, so equal
priority would preempt through the empty-queue path.) -/
theorem c1_request_grant_only_if_amended (st : FrmState) (s c2 : String) (p2 : Int)
    (hb : get_ship_blocked_status st s = false) :
    ((request_ship s c2 p2 st).1 = Except.ok true →
      (get_ship_controller st s).1 = some c2 ∨ (get_ship_controller st s).2 < p2) ∧
    ((get_ship_controller st s).1 ≠ some c2 → ¬ (get_ship_controller st s).2 < p2 →
      (request_ship s c2 p2 st).1 = Except.error ("no such column: order") ∧
      ((request_ship s c2 p2 st).2).locks = st.locks) := by
  constructor
  · intro h
    by_contra hno
    push_neg at hno
    rw [request_ship_peek_error st s c2 p2 hb hno.1 (not_lt.mpr hno.2)] at h
    exact absurd h (by simp)
  · intro hc hp
    rw [request_ship_peek_error st s c2 p2 hb hc hp]
    constructor
    · rfl
    · by_cases hn : st.navStatus s == "IN_TRANSIT" <;> simp [hn, refresh_ship_nav]

/-- C1 (witness): the amended theorem applied to the concrete owned state. -/
theorem c1_request_grant_only_if_amended_witness :
    (request_ship ("S1") ("B") 100 stOwnedA).1 = Except.error ("no such column: order") ∧
    ((request_ship ("S1") ("B") 100 stOwnedA).2).locks = stOwnedA.locks :=
  (c1_request_grant_only_if_amended stOwnedA ("S1") ("B") 100 rfl).2
    (by decide) (by decide)

/-- C2 (code_bug).  pop_request builds a DELETE statement and hands it to
update_records_custom, which refuses every statement that does not start
with UPDATE; so pop_request removes nothing, returns False, and in
particular a queued entry survives the pop that should have removed it. -/
theorem c2_pop_request_removes_nothing :
    (∀ (s c : String) (st : FrmState), pop_request s c st = (false, st)) ∧
    ((pop_request ("S1") ("B") stQueuedB).2).requests = [⟨"S1", "B", 100, 0⟩] := by
  constructor
  · intro s c st
    unfold pop_request update_records_custom
    have h : (("DELETE FROM 'control.SHIP_REQUESTS' where ship=\"" ++ s ++
        "\" and controller=\"" ++ c ++ "\"").data).take 6 =
        ("DELETE FROM 'control.SHIP_REQUESTS' where ship=\"").data.take 6 := by
      show ((((("DELETE FROM 'control.SHIP_REQUESTS' where ship=\"").data ++ s.data) ++
        ("\" and controller=\"").data) ++ c.data) ++ ("\"").data).take 6 = _
      rw [List.take_append_of_le_length, List.take_append_of_le_length,
        List.take_append_of_le_length, List.take_append_of_le_length]
      · simp [List.length_append]
      · simp [List.length_append]
      · simp [List.length_append]
      · simp [List.length_append]
    rw [h]
    simp
  · rfl

/-- C3 (code_bug).  peek_request_queue never returns a head or None: its
query orders by the bracket-quoted column named order, which the table
created by enqueue_request does not have, so the read raises a database
error that read_df re-raises (it is not a syntax error), in every state;
in particular the TTL example state at t = 41 raises instead of returning
None.  The query also carries no WHERE clause on the ship, so even with that
column present the head would be taken across all ships. -/
theorem c3_peek_request_queue_raises :
    (∀ (s : String) (st : FrmState),
      peek_request_queue s st = Except.error ("no such column: order")) ∧
    peek_request_queue ("S1") stQueuedB41 = Except.error ("no such column: order") :=
  ⟨fun _ _ => rfl, rfl⟩

/-- C4 (confirmed).  release_ship with force = false refuses on a blocked
ship leaving the state untouched, otherwise succeeds and writes the row
(controller = null, priority = -1, blocked = false); and a successful
lock_ship followed by release_ship leaves that cleared row. -/
theorem c4_release_ship_clears_row (st : FrmState) (s c : String) (p : Int) :
    (get_ship_blocked_status st s = true → release_ship s false st = (false, st)) ∧
    (get_ship_blocked_status st s = false →
      (release_ship s false st).1 = true ∧
      lookupLock ((release_ship s false st).2).locks s = some ⟨none, -1, false⟩) ∧
    ((lock_ship s c p st).1 = true →
      lookupLock ((release_ship s false (lock_ship s c p st).2).2).locks s
        = some ⟨none, -1, false⟩) := by
  refine ⟨fun hb => ?_, fun hb => ?_, fun hl => ?_⟩
  · simp [release_ship, hb]
  · simp [release_ship, hb, lookupLock_write_self]
  · by_cases hb : get_ship_blocked_status st s
    · simp [lock_ship, hb] at hl
    · have h2 : (lock_ship s c p st).2 = write_lock_row st s ⟨some c, p, false⟩ := by
        simp [lock_ship, hb]
      rw [h2]
      have hb2 : get_ship_blocked_status (write_lock_row st s ⟨some c, p, false⟩) s
          = false := by
        unfold get_ship_blocked_status
        rw [lookupLock_write_self]
      simp [release_ship, hb2, lookupLock_write_self]

/-- C4 (witness): release of the concrete unblocked owned ship, and a
lock-then-release round trip on it. -/
theorem c4_release_ship_clears_row_witness :
    ((release_ship ("S1") false stOwnedA).1 = true ∧
      lookupLock ((release_ship ("S1") false stOwnedA).2).locks ("S1")
        = some ⟨none, -1, false⟩) ∧
    lookupLock ((release_ship ("S1") false
        (lock_ship ("S1") ("A") 7 stOwnedA).2).2).locks ("S1")
      = some ⟨none, -1, false⟩ :=
  ⟨(c4_release_ship_clears_row stOwnedA ("S1") ("A") 7).2.1 rfl,
    (c4_release_ship_clears_row stOwnedA ("S1") ("A") 7).2.2 rfl⟩

/-- C5 (counterexample).  The claim includes the fuelCap < 1 SATELLITE case
in the fuel-cost invariant, but that case returns the single BURN hop
regardless of cost: with capacity 0 (fuelCap = -1) and distance 5 the hop
costs 2 * round(5) = 10, which exceeds fuelCap. -/
theorem c5_satellite_hop_exceeds_fuelcap_cex :
    get_path envSat ("A") ("B") = [⟨"B", Mode.BURN, 5⟩] ∧
    ¬ fuelCost Mode.BURN 5 ≤ fuelcapQ envSat := by
  constructor
  · norm_num [get_path, fuelcapQ, envSat, distConst]
    decide
  · norm_num [fuelCost, fuelcapQ, envSat, pyRound]

/-- C5 (amended).  When fuelCap ≥ 1 (the non-SATELLITE regime), get_path
returns the empty list or a hop sequence whose hops each cost at most
fuelCap under their chosen mode and whose final hop ends at the
destination; the SATELLITE single-hop case is excluded, its hop may exceed
fuelCap. -/
theorem c5_path_fuel_invariant_amended (env : NavEnv) (src dst : String)
    (hcap : ¬ fuelcapQ env < 1) :
    get_path env src dst = [] ∨
      ((∀ h ∈ get_path env src dst, fuelCost h.mode h.d ≤ fuelcapQ env) ∧
        (get_path env src dst).getLast?.map Hop.dst = some dst) := by
  simp only [get_path]
  rw [if_neg hcap]
  exact get_path_go_spec env dst _ _ src [] (by simp)

/-- C5 (witness): the amended invariant at the concrete hauler environment. -/
theorem c5_path_fuel_invariant_amended_witness :
    get_path envBurn ("A") ("B") = [] ∨
      ((∀ h ∈ get_path envBurn ("A") ("B"), fuelCost h.mode h.d ≤ fuelcapQ envBurn) ∧
        (get_path envBurn ("A") ("B")).getLast?.map Hop.dst = some ("B")) :=
  c5_path_fuel_invariant_amended envBurn ("A") ("B") (by norm_num [fuelcapQ, envBurn])

/-- C6 (counterexample).  Both comparisons the claim states with ≤ are
strict in the code.  With fuelCap = 100 and burnCap = 49: a goal that is a
fuel stop at distance exactly 49 gets CRUISE although the claim requires
BURN (49 ≤ burnCap and fuel stop); and a goal at distance exactly 100 gets
no appended final hop at all, the greedy fallback fails and the plan is
empty although the claim requires the single hop (dst, CRUISE, 100). -/
theorem c6_burncap_boundary_cex :
    (get_path env49 ("A") ("B") = [⟨"B", Mode.CRUISE, 49⟩] ∧
      env49.dist ("A") ("B") ≤ burncapQ env49 ∧ ("B") ∈ env49.fuelStops) ∧
    (envEdge.dist ("A") ("B") ≤ fuelcapQ envEdge ∧ get_path envEdge ("A") ("B") = []) := by
  have hp0 : pyRound (0 : ℚ) = 0 := by norm_num [pyRound]
  have hp100 : pyRound (100 : ℚ) = 100 := by norm_num [pyRound]
  refine ⟨⟨?_, ?_, by decide⟩, ?_, ?_⟩
  · have hcap : ¬ fuelcapQ env49 < 1 := by norm_num [fuelcapQ, env49]
    have hd49 : env49.dist ("A") ("B") = 49 := by
      show distConst 49 ("A") ("B") = 49
      exact distConst_ne _ _ _ (by decide)
    have hd : env49.dist ("A") ("B") < fuelcapQ env49 := by
      rw [hd49]
      norm_num [fuelcapQ, env49]
    simp only [get_path]
    rw [if_neg hcap]
    simp only [get_path_go]
    rw [if_pos hd, if_neg, List.nil_append, hd49]
    intro hmode
    have hburn : burncapQ env49 = 49 := by norm_num [burncapQ, fuelcapQ, env49]
    rw [hd49, hburn] at hmode
    exact absurd hmode.1 (by norm_num)
  · have hd49 : env49.dist ("A") ("B") = 49 := by
      show distConst 49 ("A") ("B") = 49
      exact distConst_ne _ _ _ (by decide)
    have hburn : burncapQ env49 = 49 := by norm_num [burncapQ, fuelcapQ, env49]
    rw [hd49, hburn]
  · have hd : envEdge.dist ("A") ("B") = 100 := by
      show distConst 100 ("A") ("B") = 100
      exact distConst_ne _ _ _ (by decide)
    rw [hd]
    norm_num [fuelcapQ, envEdge]
  · have d2 : distConst 100 ("A") ("B") = 100 := distConst_ne _ _ _ (by decide)
    have hfil : (["A", "B"]).filter
        (fun wp => get_fuel_required envEdge ("A") wp Mode.CRUISE < fuelcapQ envEdge)
        = ["A"] := by
      have d1 : distConst 100 ("A") ("A") = 0 := distConst_self _ _
      norm_num [List.filter_cons, get_fuel_required, fuelCost, envEdge, d1, d2, hp0,
        hp100, fuelcapQ]
    have hnodes : ((["A", "B"] ++ envEdge.fuelStops)).dedup = ["A", "B"] := by decide
    have hcap : ¬ fuelcapQ envEdge < 1 := by norm_num [fuelcapQ, envEdge]
    have hno : ¬ envEdge.dist ("A") ("B") < fuelcapQ envEdge := by
      show ¬ distConst 100 ("A") ("B") < fuelcapQ envEdge
      rw [d2]
      norm_num [fuelcapQ, envEdge]
    simp only [get_path]
    rw [if_neg hcap, hnodes]
    simp only [get_path_go]
    rw [if_neg hno, hfil]
    simp only [pickClosest, List.foldl_nil]
    rw [if_pos]
    show envEdge.dist ("A") ("B") ≥ envEdge.dist ("A") ("B")
    exact le_refl _

/-- C6 (amended).  Whenever the distance from the current node to the
destination is strictly below fuelCap, the loop appends the single final hop
and stops, with mode BURN exactly when the distance is strictly below
burnCap and the destination is a known fuel stop, CRUISE otherwise; and the
same at top level for get_path when fuelCap ≥ 1.  (The claim stated both
threshold comparisons with ≤; the code uses <.) -/
theorem c6_direct_hop_amended (env : NavEnv) (goal : String) :
    (∀ (fuel : Nat) (nodes : List String) (cur : String) (path : List Hop),
      env.dist cur goal < fuelcapQ env →
      get_path_go env (fuelcapQ env) (burncapQ env) goal (fuel + 1) nodes cur path =
        path ++ [⟨goal,
          if env.dist cur goal < burncapQ env ∧ goal ∈ env.fuelStops then Mode.BURN
          else Mode.CRUISE, env.dist cur goal⟩]) ∧
    (∀ src : String, ¬ fuelcapQ env < 1 → env.dist src goal < fuelcapQ env →
      get_path env src goal =
        [⟨goal,
          if env.dist src goal < burncapQ env ∧ goal ∈ env.fuelStops then Mode.BURN
          else Mode.CRUISE, env.dist src goal⟩]) := by
  constructor
  · intro fuel nodes cur path h
    simp only [get_path_go]
    rw [if_pos h]
  · intro src hcap h
    simp only [get_path]
    rw [if_neg hcap]
    simp only [get_path_go]
    rw [if_pos h]
    simp

/-- C6 (witness): the two concrete scenarios of the claim, with strict
thresholds; distance 40 to a fuel stop yields the BURN hop, distance 60
yields the CRUISE hop. -/
theorem c6_direct_hop_amended_witness :
    get_path envBurn ("A") ("B") = [⟨"B", Mode.BURN, 40⟩] ∧
    get_path envCruise ("A") ("B") = [⟨"B", Mode.CRUISE, 60⟩] := by
  constructor
  · have hd : envBurn.dist ("A") ("B") = 40 := by
      show distConst 40 ("A") ("B") = 40
      exact distConst_ne _ _ _ (by decide)
    have hb : burncapQ envBurn = 49 := by norm_num [burncapQ, fuelcapQ, envBurn]
    have h := (c6_direct_hop_amended envBurn ("B")).2 ("A")
      (by norm_num [fuelcapQ, envBurn])
      (by rw [hd]; norm_num [fuelcapQ, envBurn])
    rw [hd, hb] at h
    rw [h, if_pos]
    exact ⟨by norm_num, by decide⟩
  · have hd : envCruise.dist ("A") ("B") = 60 := by
      show distConst 60 ("A") ("B") = 60
      exact distConst_ne _ _ _ (by decide)
    have hb : burncapQ envCruise = 49 := by norm_num [burncapQ, fuelcapQ, envCruise]
    have h := (c6_direct_hop_amended envCruise ("B")).2 ("A")
      (by norm_num [fuelcapQ, envCruise])
      (by rw [hd]; norm_num [fuelcapQ, envCruise])
    rw [hd, hb] at h
    rw [h, if_neg]
    rintro ⟨h1, _⟩
    norm_num at h1

/-- C7 (counterexample).  A write whose every attempt fails with a syntax
error is retried: write_data makes all three attempts (sleeping 0.5, 1.0
and 1.5 seconds), not the single attempt the fail-fast claim requires. -/
theorem c7_sql_failure_retried_cex :
    write_data (fun _ => WriteOutcome.failed ("near FROM: syntax error"))
      = (false, 3, [1/2, 1, 3/2]) ∧
    ¬ (write_data (fun _ => WriteOutcome.failed ("near FROM: syntax error"))).2.1 = 1 := by
  have h : write_data (fun _ => WriteOutcome.failed ("near FROM: syntax error"))
      = (false, 3, [1/2, 1, 3/2]) := by
    norm_num [write_data, write_data_go, write_rows_result]
  refine ⟨h, ?_⟩
  rw [h]
  decide

/-- C7 (amended).  write_data treats every failed attempt alike, syntax
errors included, because write_rows returns a plain False for each caught
exception: the write is attempted up to three times, a backoff of
0.5 s x attempt follows every failed attempt (the last included), the loop
stops at the first success, and after three failures the caller receives
failure.  Fail-fast on syntax errors exists only in the read path
(io.read_df). -/
theorem c7_write_retry_amended (outcome : Nat → WriteOutcome) :
    write_data outcome =
      (if write_rows_result (outcome 1) then (true, 1, ([] : List ℚ))
       else if write_rows_result (outcome 2) then (true, 2, [1/2])
       else if write_rows_result (outcome 3) then (true, 3, [1/2, 1])
       else (false, 3, [1/2, 1, 3/2])) := by
  by_cases h1 : write_rows_result (outcome 1) = true
  · simp [write_data, write_data_go, h1]
  · by_cases h2 : write_rows_result (outcome 2) = true
    · simp [write_data, write_data_go, h1, h2]
    · by_cases h3 : write_rows_result (outcome 3) = true
      · simp [write_data, write_data_go, h1, h2, h3]
      · simp [write_data, write_data_go, h1, h2, h3]
        norm_num

/-- C8 (counterexample).  The no_exchanges selector queried for system
AA-S1 returns the market AA-S2-M of system AA-S2 (its symbol does not start
with the queried system followed by a dash, the in-system test the sibling
selectors apply with LIKE): markets of other systems do appear. -/
theorem c8_foreign_market_selected_cex :
    get_import_export_markets_by_freshness ("AA-S1") 100 1000 tgRowsForeign
      = [("AA-S2-M")] ∧
    ¬ ("AA-S2-M").data.take 6 = ("AA-S1-").data := by
  constructor
  · decide
  · decide

/-- C8 (amended).  The queue of the no_exchanges selector contains the
markets of ANY system having an IMPORT row and an EXPORT row with the group
ts_created older than now - refreshFreq, oldest first: the system argument
has no effect on the result (the query never uses it), as the concrete
mixed table shows - the import+export stale markets of both systems are
kept, oldest first, while exchange-only, fresh and import-only markets are
dropped. -/
theorem c8_selector_amended :
    (∀ (s1 s2 : String) (td now : Int) (rows : List TgRow),
      get_import_export_markets_by_freshness s1 td now rows =
        get_import_export_markets_by_freshness s2 td now rows) ∧
    get_import_export_markets_by_freshness ("AA-S1") 100 1000 tgRowsMixed
      = [("AA-S2-M2"), ("AA-S1-M1")] := by
  constructor
  · intro s1 s2 td now rows
    rfl
  · decide

/-- C9 (confirmed).  The spawned task repeats max(1, min(cargoCap //
tradeVolume, maxTraders - ongoing)) times - the claim formula - because
clamping the controller repeat count with max 1 before the min does not
change the clamped result; the ongoing ledger entry for the trade rises by
exactly the covered count; and the concrete instance 60/20/4/1 gives 3. -/
theorem c9_bundle_repeats_and_ledger (cap units m o : Int) (L : OngoingTrades)
    (sym src sink : String) (hu : 0 < units) :
    assigned_repeats cap units m o = max 1 (min (Int.fdiv cap units) (m - o)) ∧
    (∀ n_cov : Int,
      ongoing_get (ongoing_mark L sym src sink (ongoing_get L sym src sink) n_cov)
        sym src sink = ongoing_get L sym src sink + n_cov) ∧
    assigned_repeats 60 20 4 1 = 3 := by
  refine ⟨?_, fun n_cov => ongoing_get_mark L sym src sink n_cov, by decide⟩
  unfold assigned_repeats assign_hauler_repeats trade_task_repeats
  omega

/-- C9 (witness): the claim instance with cargoCap = 60, tradeVolume = 20,
maxTraders = 4, ongoing = 1, and a ledger increment of 3 on the empty
ledger. -/
theorem c9_bundle_repeats_and_ledger_witness :
    assigned_repeats 60 20 4 1 = max 1 (min (Int.fdiv 60 20) (4 - 1)) ∧
    ongoing_get (ongoing_mark [] ("GOODS") ("SRC") ("SNK")
        (ongoing_get [] ("GOODS") ("SRC") ("SNK")) 3) ("GOODS") ("SRC") ("SNK")
      = ongoing_get [] ("GOODS") ("SRC") ("SNK") + 3 := by
  have h := c9_bundle_repeats_and_ledger 60 20 4 1 [] ("GOODS") ("SRC") ("SNK")
    (by decide)
  exact ⟨h.1, h.2.1 3⟩

/-- C10 (code_bug).  release_fleet folds success = success and
release_ship(s, force); the Python and short-circuits, so once the blocked
S1 fails to release, release_ship is never called for the unblocked owned
S2: the whole lock table is unchanged, S2 keeps its owner although the
claim requires it freed, and the call returns false. -/
theorem c10_release_fleet_short_circuits :
    (release_fleet ("C") false stFleetC).1 = false ∧
    ((release_fleet ("C") false stFleetC).2).locks = stFleetC.locks ∧
    lookupLock ((release_fleet ("C") false stFleetC).2).locks ("S2")
      = some ⟨some "C", 5, false⟩ ∧
    get_ship_blocked_status stFleetC ("S2") = false := by
  exact ⟨rfl, rfl, rfl, rfl⟩

end SpaceTraders
